import Mathlib

/-!
Verification of the aider-agent task/workflow orchestration core against its
specification.  The Python sources (`agent_core/issue_selector.py`,
`agent_core/storage.py`, `agent_core/task_runner.py`,
`agent_core/fix_workflow.py`) are shallowly embedded below: pure functions
become Lean functions, stateful methods become explicit state passing, and
fallible calls return `Except`/`Option`.  Machine integers are modelled as
`Int`/`Nat` (Python integers are unbounded, so no wrap-around modelling is
needed).
-/

namespace AiderAgent

/-! ## Basic helpers shared by the embeddings

`containsSub hay needle` models the Python substring test `needle in hay`
(`str.__contains__`).  The empty needle is contained in every string, as in
Python. -/

def containsSub (hay needle : List Char) : Bool :=
  match hay with
  | [] => needle.isEmpty
  | _ :: t => needle.isPrefixOf hay || containsSub t needle

/-- Python `needle in hay` on `str`. -/
def strIn (needle hay : String) : Bool :=
  containsSub hay.data needle.data

/-- Python `str.lower()` on the ASCII text handled here: lower-case every
character (the same per-character map as core's `String.toLower`, written
structurally over the character list). -/
def strLower (s : String) : String :=
  ⟨s.data.map Char.toLower⟩

/-! ## `agent_core/issue_selector.py` -/

/-- The `Issue` dataclass of `issue_selector.py`.  `difficulty_score` is
`Optional[int]` (None until scored); `estimated_files` defaults to 0;
`recommendation` defaults to the empty string. -/
structure Issue where
  number : Int
  title : String
  body : String
  labels : List String
  url : String
  comments : Int
  assignees : List String
  created_at : String
  difficulty_score : Option Int
  recommendation : String
  estimated_files : Int
deriving DecidableEq, Repr

/-- A raw issue dictionary as consumed by `IssueSelector.filter_issues`
(the `.get(...)` defaults of the source are already applied: a missing
`body`, or `body = None`, arrives here as `""`, and so on). -/
structure RawIssue where
  number : Int
  title : String
  body : String
  labels : List String
  url : String
  comments : Int
  assignees : List String
  created_at : String
deriving DecidableEq, Repr

/-- `IssueSelector.GOOD_LABELS`. -/
def GOOD_LABELS : List String :=
  ["good first issue", "good-first-issue", "help wanted", "help-wanted",
   "beginner", "beginner-friendly", "easy", "low-hanging-fruit", "starter",
   "first-timers-only", "documentation", "docs", "typo"]

/-- `IssueSelector.SKIP_LABELS`. -/
def SKIP_LABELS : List String :=
  ["wontfix", "won't fix", "invalid", "duplicate", "question", "discussion",
   "needs-discussion", "breaking-change", "breaking", "security"]

/-- `IssueSelector.EASY_KEYWORDS`. -/
def EASY_KEYWORDS : List String :=
  ["typo", "typos", "spelling", "grammar", "documentation", "readme",
   "comment", "rename", "format", "formatting", "indent", "whitespace",
   "missing", "add", "update", "fix link", "broken link"]

/-- `[l.lower() for l in labels]` (`strLower` matches Python `str.lower`
on the ASCII label/keyword sets used here). -/
def labelsLower (labels : List String) : List String :=
  labels.map strLower

/-- Build an `Issue` from a raw dictionary, as the `Issue(...)` constructor
call at the top of `filter_issues` does (triage fields at their dataclass
defaults). -/
def mkIssue (d : RawIssue) : Issue :=
  { number := d.number, title := d.title, body := d.body, labels := d.labels,
    url := d.url, comments := d.comments, assignees := d.assignees,
    created_at := d.created_at, difficulty_score := none,
    recommendation := "", estimated_files := 0 }

/-- `IssueSelector.filter_issues`: drop issues with a non-empty assignee
list, and issues one of whose lowercased labels is (exactly) a member of
`SKIP_LABELS`. -/
def filter_issues : List RawIssue → List Issue
  | [] => []
  | d :: rest =>
    let issue := mkIssue d
    if issue.assignees ≠ [] then
      filter_issues rest
    else if SKIP_LABELS.any (fun skip => (labelsLower issue.labels).contains skip) then
      filter_issues rest
    else
      issue :: filter_issues rest

/-! ### The file-mention counter

`quick_score` counts matches of the regex
`\b\w+\.(py|js|ts|go|rs|java|cpp|c|h)\b` in the issue body with
`re.findall`.  Because `\w+` only matches word characters and the literal
dot must follow it, the regex matches at a position exactly when the
position starts a maximal word-character run that is immediately followed
by a dot, one of the extensions, and a word boundary; `re.findall` then
continues scanning after the match (non-overlapping).  `\w` is modelled for
ASCII text (`[A-Za-z0-9_]`). -/

def wordChar (c : Char) : Bool :=
  c.isAlphanum || c = '_'

/-- The alternation `(py|js|ts|go|rs|java|cpp|c|h)`, in source order. -/
def extList : List (List Char) :=
  [['p','y'], ['j','s'], ['t','s'], ['g','o'], ['r','s'],
   ['j','a','v','a'], ['c','p','p'], ['c'], ['h']]

/-- Match one of the extensions at the head of `l`, requiring a word
boundary after it (end of input or a non-word character); returns the
matched length.  Alternatives are tried in source order, as a backtracking
regex engine does. -/
def extMatchLen (l : List Char) : Option Nat :=
  extList.findSome? fun e =>
    if e.isPrefixOf l &&
        (match l.drop e.length with
         | [] => true
         | c :: _ => !wordChar c) then
      some e.length
    else
      none

/-- Length of the maximal word-character run at the head of the list. -/
def wordRunLen : List Char → Nat
  | [] => 0
  | c :: t => if wordChar c then wordRunLen t + 1 else 0

/-- Attempt a regex match at the current position.  `prevWord` tells
whether the preceding character is a word character (no word boundary
then).  Returns the total length of the match. -/
def matchLenAt (prevWord : Bool) (l : List Char) : Option Nat :=
  if prevWord then none
  else
    let m := wordRunLen l
    if m = 0 then none
    else
      match l.drop m with
      | '.' :: rest =>
        match extMatchLen rest with
        | some k => some (m + 1 + k)
        | none => none
      | _ => none

/-- Fuel-driven scan counting non-overlapping matches, mirroring the
left-to-right scan of `re.findall`.  After a match the scan resumes right
after it; the last matched character is an extension letter, hence a word
character (`prevWord := true`). -/
def countMatches : Nat → Bool → List Char → Nat
  | 0, _, _ => 0
  | _ + 1, _, [] => 0
  | fuel + 1, prevWord, c :: t =>
    match matchLenAt prevWord (c :: t) with
    | some k => 1 + countMatches fuel true ((c :: t).drop k)
    | none => countMatches fuel (wordChar c) t

/-- `len(re.findall(r'\b\w+\.(py|js|ts|go|rs|java|cpp|c|h)\b', body))`. -/
def file_mentions (body : String) : Nat :=
  countMatches (body.data.length + 1) false body.data

/-! ### Scoring

The source accumulates a Python float whose fractional part is always a
multiple of 0.5, then truncates with `int(...)` and clamps.  We track the
score in half-points (`s = 2 * score`) and truncate with `Int.div`
(rounding toward zero, exactly like Python `int()` on these values). -/

/-- The difficulty value computed by `IssueSelector.quick_score`
(its return value), in terms of the issue's immutable fields only. -/
def quick_score_val (i : Issue) : Int :=
  let title_lower := strLower i.title
  let body_lower := strLower i.body
  let ll := labelsLower i.labels
  let s0 : Int := 6
  let s1 := if GOOD_LABELS.any (fun good => ll.contains good) then s0 - 2 else s0
  let s2 := if EASY_KEYWORDS.any (fun kw => strIn kw title_lower || strIn kw body_lower)
            then s1 - 2 else s1
  let s3 := if i.body.length < 200 then s2 - 1 else s2
  let s4 := if i.body.length > 1000 then s3 + 2 else s3
  let s5 := if i.comments > 10 then s4 + 2
            else if i.comments > 5 then s4 + 1 else s4
  let s6 := if file_mentions i.body > 3 then s5 + 2 else s5
  max 1 (min 5 (Int.tdiv s6 2))

/-- `IssueSelector._generate_recommendation`. -/
def generate_recommendation (i : Issue) (score : Int) : String :=
  let ll := labelsLower i.labels
  let r1 : List String :=
    if GOOD_LABELS.any (fun good => ll.contains good) then ["有新手友好标签"] else []
  let title_lower := strLower i.title
  let r2 :=
    if ["typo", "spelling", "grammar"].any (fun kw => strIn kw title_lower) then
      r1 ++ ["是拼写/语法修复"]
    else if ["doc", "readme"].any (fun kw => strIn kw title_lower) then
      r1 ++ ["是文档更新"]
    else r1
  let reasons := if i.comments = 0 then r2 ++ ["无评论讨论"] else r2
  if score ≤ 2 then
    if reasons ≠ [] then "推荐修复: " ++ String.intercalate ", " reasons else "推荐修复"
  else if score = 3 then
    if reasons ≠ [] then "可以尝试: " ++ String.intercalate ", " reasons else "中等难度"
  else "难度较高，建议跳过"

/-- `IssueSelector.quick_score` as a state transformer: the source mutates
`issue.estimated_files`, `issue.difficulty_score` and
`issue.recommendation` in place and returns the score; the updated issue
is returned here (the score itself is `quick_score_val i`). -/
def quick_score (i : Issue) : Issue :=
  let fm := file_mentions i.body
  let score := quick_score_val i
  { i with
    estimated_files := max 1 (Int.ofNat fm),
    difficulty_score := some score,
    recommendation := generate_recommendation i score }

/-- The sort key `lambda x: (x.difficulty_score or 5, x.comments)`
(Python `or` turns both `None` and `0` into `5`). -/
def issueKey (i : Issue) : Int × Int :=
  (match i.difficulty_score with
   | none => 5
   | some d => if d = 0 then 5 else d,
   i.comments)

/-- Boolean `≤` on the sort keys (lexicographic, as Python tuple
comparison under `sorted`). -/
def issueLE (a b : Issue) : Bool :=
  decide ((issueKey a).1 < (issueKey b).1 ∨
    ((issueKey a).1 = (issueKey b).1 ∧ (issueKey a).2 ≤ (issueKey b).2))

/-- `IssueSelector.sort_by_difficulty`: score every not-yet-scored issue,
then stable-sort ascending by `(difficulty_score or 5, comments)`
(Python `sorted` is a stable merge sort, modelled by `List.mergeSort`). -/
def sort_by_difficulty (issues : List Issue) : List Issue :=
  (issues.map fun i => if i.difficulty_score = none then quick_score i else i).mergeSort
    issueLE

/-- `IssueSelector.get_best_issues`. -/
def get_best_issues (raws : List RawIssue) (limit : Nat) : List Issue :=
  (sort_by_difficulty (filter_issues raws)).take limit

/-! ## Decimal representation helper

Task ids are produced by `str(self._task_counter)` and recovered by
`int(task_id)`.  In the embedding they are `toString (n : Nat)` and
`String.toNat?`; `digitsRep` is a structurally recursive mirror of core's
`Nat.toDigits 10`, used to prove the round-trip. -/

def digitsRep (n : Nat) : List Char :=
  if _h : n < 10 then [Nat.digitChar n]
  else digitsRep (n / 10) ++ [Nat.digitChar (n % 10)]
decreasing_by exact Nat.div_lt_self (by omega) (by omega)

/-! ## `agent_core/storage.py` — `Storage.save`/`Storage.load` crash model

The filesystem state for one store name is the content of `<name>.json`
(`mainFile`) and `<name>.tmp` (`tempFile`); `none` means the file does not
exist.  Documents are identified with their serialized text
(`json.dump`/`json.load` round-trip on a complete file).  `Storage.save`
performs, in order: (1) write the full document to the temp file, (2)
`unlink` the target if it exists, (3) `rename` the temp file onto the
target.  Each step is atomic; a crash can strike between (or inside) the
steps. -/

structure FsName where
  mainFile : Option String
  tempFile : Option String
deriving DecidableEq, Repr

/-- Where a crash interrupts `Storage.save`. -/
inductive SaveCrash
  /-- before the temp file is opened/written -/
  | beforeWrite
  /-- mid `json.dump`: the temp file holds a partial serialization -/
  | duringWrite (written : String)
  /-- temp fully written, before the `unlink` of the target -/
  | afterWrite
  /-- after `file_path.unlink()`, before `temp_path.rename(file_path)` -/
  | afterUnlink
deriving DecidableEq, Repr

/-- A completed `Storage.save(name, data)`: temp written, target unlinked,
temp renamed onto the target. -/
def Storage.save (_fs : FsName) (data : String) : FsName × Bool :=
  ({ mainFile := some data, tempFile := none }, true)

/-- The filesystem left behind when `Storage.save(name, data)` crashes at
the given point.  Note step (2) runs only when the target exists, so after
the unlink point the target is absent in either case. -/
def Storage.saveCrashed (fs : FsName) (data : String) : SaveCrash → FsName
  | .beforeWrite => fs
  | .duringWrite w => { fs with tempFile := some w }
  | .afterWrite => { fs with tempFile := some data }
  | .afterUnlink => { mainFile := none, tempFile := some data }

/-- `Storage.load(name, default)`: returns the target's (fully committed)
document, or the default when the file does not exist. -/
def Storage.load (fs : FsName) (dflt : String) : String :=
  match fs.mainFile with
  | none => dflt
  | some d => d

/-! ## `agent_core/task_runner.py` — data model and registry -/

/-- The `TaskStatus` enum. -/
inductive TaskStatus
  | pending
  | cloning
  | cloned
  | reviewing
  | fixing
  | completed
  | error
deriving DecidableEq, Repr

/-- `TaskStatus(...).value`. -/
def TaskStatus.value : TaskStatus → String
  | .pending => "pending"
  | .cloning => "cloning"
  | .cloned => "cloned"
  | .reviewing => "reviewing"
  | .fixing => "fixing"
  | .completed => "completed"
  | .error => "error"

/-- `TaskStatus(status_str)`: `some` on the seven recognized values,
`none` models the `ValueError`. -/
def TaskStatus.ofValue? (s : String) : Option TaskStatus :=
  if s = "pending" then some .pending
  else if s = "cloning" then some .cloning
  else if s = "cloned" then some .cloned
  else if s = "reviewing" then some .reviewing
  else if s = "fixing" then some .fixing
  else if s = "completed" then some .completed
  else if s = "error" then some .error
  else none

/-- The `Task` dataclass. -/
structure Task where
  id : String
  repo_url : String
  repo_name : String
  status : TaskStatus
  local_path : Option String
  message : String
  output : String
  error : String
deriving DecidableEq, Repr

/-- One serialized task record inside the persisted `tasks` document
(`status` is the enum's string value). -/
structure TaskDoc where
  id : String
  repo_url : String
  repo_name : String
  status : String
  local_path : Option String
  message : String
  output : String
  error : String
deriving DecidableEq, Repr

/-- Python truthiness of an optional string (`None` and `''` are falsy),
as in `if task_data.get('local_path')`. -/
def truthy : Option String → Bool
  | none => false
  | some s => !s.isEmpty

/-- The per-task serialization step of `TaskStorage.save_tasks`
(`output` capped at 10000 characters).  The document's `updated_at`
timestamp carries no task data and is not modelled. -/
def serializeTask (t : Task) : TaskDoc :=
  { id := t.id, repo_url := t.repo_url, repo_name := t.repo_name,
    status := t.status.value, local_path := t.local_path,
    message := t.message, output := t.output.take 10000, error := t.error }

/-- `TaskStorage.save_tasks`: the persisted document's `tasks` mapping,
in dict insertion order. -/
def save_tasks (tasks : List (String × Task)) : List (String × TaskDoc) :=
  tasks.map fun p => (p.1, serializeTask p.2)

/-- `TaskStorage.get_last_task_id`: fold `max` over the keys that parse
as numbers (ids the registry itself allocates are decimal digit strings,
on which Python `int` and `String.toNat?` agree; keys that fail to parse
are skipped, and negative parses cannot lower a `max` that starts at 0). -/
def get_last_task_id (store : List (String × TaskDoc)) : Nat :=
  store.foldl
    (fun m p => match p.1.toNat? with
      | some n => max m n
      | none => m) 0

/-- Reconstruction of one task in `TaskRunner._load_tasks`: parse the
status string (unknown values fall back to PENDING via the caught
`ValueError`), then downgrade in-flight statuses to CLONED or PENDING
according to `local_path` truthiness. -/
def load_task (doc : TaskDoc) : Task :=
  let status0 := match TaskStatus.ofValue? doc.status with
    | some s => s
    | none => TaskStatus.pending
  let status :=
    if status0 = .cloning ∨ status0 = .reviewing ∨ status0 = .fixing then
      if truthy doc.local_path then TaskStatus.cloned else TaskStatus.pending
    else status0
  { id := doc.id, repo_url := doc.repo_url, repo_name := doc.repo_name,
    status := status, local_path := doc.local_path, message := doc.message,
    output := doc.output, error := doc.error }

/-- `TaskRunner._load_tasks` over the whole persisted document (documents
containing all required keys, as produced by `save_tasks`, raise nothing,
so every entry is reconstructed). -/
def load_tasks (store : List (String × TaskDoc)) : List (String × Task) :=
  store.map fun p => (p.1, load_task p.2)

/-- Python dict assignment `d[k] = v`: replace in place when the key
exists, append otherwise. -/
def dictInsert (m : List (String × α)) (k : String) (v : α) : List (String × α) :=
  if m.any (fun p => p.1 == k) then
    m.map fun p => if p.1 == k then (k, v) else p
  else m ++ [(k, v)]

/-- Python `del d[k]` (the caller checks membership first). -/
def dictRemove (m : List (String × α)) (k : String) : List (String × α) :=
  m.filter fun p => !(p.1 == k)

/-- Python `str.rstrip(chars)`: strip trailing characters drawn from the
given set. -/
def rstripSet (s : String) (cs : List Char) : String :=
  ⟨(s.data.reverse.dropWhile fun c => cs.contains c).reverse⟩

/-- `TaskRunner._get_repo_name`:
`url.rstrip('/').rstrip('.git').split('/')[-1]` (note Python `rstrip`
takes a character set, so `.git` strips trailing `.`/`g`/`i`/`t`). -/
def get_repo_name (url : String) : String :=
  (((rstripSet (rstripSet url ['/']) ['.', 'g', 'i', 't']).splitOn "/").getLast?).getD ""

/-- The registry state: in-memory task dict, id counter, persisted store
(`auto_save = True`, so every mutation persists synchronously). -/
structure TaskRunnerState where
  tasks : List (String × Task)
  task_counter : Nat
  store : List (String × TaskDoc)
deriving DecidableEq, Repr

/-- `TaskRunner.create_task`. -/
def create_task (st : TaskRunnerState) (repo_url : String) : TaskRunnerState × Task :=
  let counter := st.task_counter + 1
  let task_id := toString counter
  let task : Task :=
    { id := task_id, repo_url := repo_url, repo_name := get_repo_name repo_url,
      status := .pending, local_path := none, message := "", output := "",
      error := "" }
  let tasks := dictInsert st.tasks task_id task
  ({ tasks := tasks, task_counter := counter, store := save_tasks tasks }, task)

/-- `TaskRunner.delete_task`. -/
def delete_task (st : TaskRunnerState) (task_id : String) : TaskRunnerState :=
  if st.tasks.any (fun p => p.1 == task_id) then
    let tasks := dictRemove st.tasks task_id
    { tasks := tasks, task_counter := st.task_counter, store := save_tasks tasks }
  else st

/-- `TaskRunner.__init__` after a restart: reload the in-memory dict from
the persisted store and recover the counter via `get_last_task_id`. -/
def restartRunner (store : List (String × TaskDoc)) : TaskRunnerState :=
  { tasks := load_tasks store, task_counter := get_last_task_id store,
    store := store }

/-- A fresh registry (empty store no file yet, counter 0). -/
def freshRunner : TaskRunnerState :=
  { tasks := [], task_counter := 0, store := [] }

/-- One registry operation of the id-allocation claim. -/
inductive RegOp
  | create (repo_url : String)
  | delete (task_id : String)
deriving DecidableEq, Repr

/-- Run a sequence of create/delete operations, collecting the ids handed
out by `create_task` in order. -/
def run_ops : TaskRunnerState → List RegOp → TaskRunnerState × List String
  | st, [] => (st, [])
  | st, RegOp.create url :: rest =>
    let p := create_task st url
    let q := run_ops p.1 rest
    (q.1, p.2.id :: q.2)
  | st, RegOp.delete tid :: rest => run_ops (delete_task st tid) rest

/-! ## `TaskRunner.clone_repo` — mutation trace for the `local_path`
invariant -/

/-- The environment of one `clone_repo` call: whether the checkout
directory already exists, and the outcome of the `git clone`/`git pull`
subprocess (`error` models a raised exception). -/
structure CloneEnv where
  repoPathExists : Bool
  gitResult : Except String (Int × String × String)
deriving Repr

/-- The snapshots a `Task` passes through during `clone_repo`: the task as
found, after `task.local_path = str(repo_path)`, after the transition to
CLONING, after the optional pull message update, and the final state
(CLONED on exit code 0, ERROR on a non-zero exit or an exception). -/
def clone_repo_trace (task : Task) (workDir : String) (env : CloneEnv) : List Task :=
  let repo_path := workDir ++ "/" ++ task.repo_name
  let t1 := { task with local_path := some repo_path }
  let t2 := { t1 with status := TaskStatus.cloning,
                      message := "正在克隆 " ++ task.repo_url ++ "..." }
  let t3 := if env.repoPathExists then
              { t2 with message := "仓库已存在，拉取最新代码..." }
            else t2
  let t4 := match env.gitResult with
    | .ok (code, _, stderr) =>
      if code = 0 then { t3 with status := TaskStatus.cloned, message := "克隆完成！" }
      else { t3 with status := TaskStatus.error, error := stderr,
                     message := "克隆失败: " ++ stderr }
    | .error e => { t3 with status := TaskStatus.error, error := e,
                            message := "错误: " ++ e }
  [task, t1, t2, t3, t4]

/-- "state is at least CLONED in the progression
PENDING < CLONING < CLONED < REVIEWING < COMPLETED" (states outside the
progression are not `≥ CLONED` in it). -/
def atLeastCloned : TaskStatus → Bool
  | .cloned | .reviewing | .completed => true
  | _ => false

/-! ## `agent_core/fix_workflow.py` -/

/-- The `FixStatus` enum. -/
inductive FixStatus
  | pending
  | branching
  | fixing
  | reviewing
  | diff_ready
  | committing
  | pushing
  | creating_pr
  | completed
  | error
deriving DecidableEq, Repr

/-- One finding of a parsed structured review (defaults
`f.get('priority', 3)` / `f.get('title', '未知问题')` already applied). -/
structure Finding where
  priority : Int
  title : String
deriving DecidableEq, Repr

/-- A parsed structured review (`findings`, `overall_correctness`). -/
structure Review where
  findings : List Finding
  overall_correctness : String
deriving DecidableEq, Repr

/-- The `FixResult` dataclass. -/
structure FixResult where
  success : Bool
  status : FixStatus
  branch_name : String
  diff : String
  review : Option Review
  pr_url : String
  error : String
  output : String
deriving DecidableEq, Repr

/-- `FixResult()` with its dataclass defaults. -/
def FixResult.init : FixResult :=
  { success := false, status := .pending, branch_name := "", diff := "",
    review := none, pr_url := "", error := "", output := "" }

/-- The issue dictionary consumed by `run_fix` (`issue['number']`,
`issue['title']`, `issue.get('body', '')`). -/
structure FixIssue where
  number : Int
  title : String
  body : String
deriving DecidableEq, Repr

/-- Behaviour of the collaborators during one `run_fix` call, one oracle
value per invocation site (each site is called at most once in a run).
`Except.error e` models a raised exception with text `e`.  `create_pr`
never raises: the source wraps its whole body in try/except and returns
`(False, str(e))`. -/
structure WorkflowEnv where
  create_fix_branch : Except String (Bool × String)
  fixLines : List String
  fixOutcome : Except String (Int × String)
  gitDiffCached : Except String (Int × String × String)
  gitDiff : Except String (Int × String × String)
  gitStatusPorcelain : Except String (Int × String × String)
  reviewLines : List String
  reviewOutcome : Except String (Int × String)
  parseReview : String → Option Review
  commit_changes : Except String (Bool × String)
  push_branch : Except String (Bool × String)
  create_pr : Bool × String

/-- Which collaborator invocations actually ran (for "the COMMITTING step
is never entered" / "the review sub-step is skipped"). -/
inductive CallTag
  | branchCall
  | fixCall
  | diffCachedCall
  | diffCall
  | statusCall
  | reviewCall
  | commitCall
  | pushCall
  | prCall
deriving DecidableEq, Repr

/-- The accumulated `result.output` after logging a list of lines. -/
def appendLines (base : String) (l : List String) : String :=
  l.foldl (fun acc m => acc ++ m ++ "\n") base

/-- The mutable state of one `run_fix` call: the `FixResult` being built,
the collaborator calls made so far, and the status transitions performed
(each `update_status` appends one event). -/
structure RunState where
  res : FixResult
  calls : List CallTag
  events : List (FixStatus × String)
deriving DecidableEq, Repr

/-- State-plus-exceptions: Python exceptions leave already-performed
mutations in place, so errors carry the state. -/
def M (α : Type) : Type := RunState → Except String α × RunState

instance : Monad M where
  pure a := fun st => (Except.ok a, st)
  bind x f := fun st =>
    match x st with
    | (Except.ok a, st1) => f a st1
    | (Except.error e, st1) => (Except.error e, st1)

/-- `raise Exception(e)`. -/
def throwM (e : String) : M α := fun st => (Except.error e, st)

/-- Mutate the `FixResult`. -/
def modifyRes (f : FixResult → FixResult) : M Unit :=
  fun st => (Except.ok (), { st with res := f st.res })

/-- Record a collaborator invocation. -/
def recordCall (t : CallTag) : M Unit :=
  fun st => (Except.ok (), { st with calls := st.calls ++ [t] })

/-- Record a status transition. -/
def recordEvent (s : FixStatus) (msg : String) : M Unit :=
  fun st => (Except.ok (), { st with events := st.events ++ [(s, msg)] })

/-- The status/output callbacks passed to `run_fix`; `some e` means the
callback raised an exception with text `e`. -/
structure Callbacks where
  on_status : FixStatus → String → Option String
  on_output : String → Option String

/-- The nested `update_status` helper: set `result.status`, then invoke
the status callback (which may raise). -/
def update_status (cb : Callbacks) (s : FixStatus) (msg : String) : M Unit := do
  modifyRes fun r => { r with status := s }
  recordEvent s msg
  match cb.on_status s msg with
  | some e => throwM e
  | none => pure ()

/-- The nested `log` helper: append to `result.output`, then invoke the
output callback (which may raise). -/
def logMsg (cb : Callbacks) (msg : String) : M Unit := do
  modifyRes fun r => { r with output := r.output ++ msg ++ "\n" }
  match cb.on_output msg with
  | some e => throwM e
  | none => pure ()

/-- Run one collaborator call: record it, then return its value or
re-raise its exception. -/
def liftExc (tag : CallTag) (x : Except String α) : M α := do
  recordCall tag
  match x with
  | .ok a => pure a
  | .error e => throwM e

/-- A bare `except: pass` around a block: exceptions are swallowed,
mutations performed before the exception persist. -/
def swallow (m : M Unit) : M Unit := fun st =>
  match m st with
  | (_, st1) => (Except.ok (), st1)

/-- The concatenation of the (conditionally included) staged and unstaged
diff sections built at the top of `FixWorkflow.get_diff`. -/
def diff_concat (staged unstaged : String) : String :=
  let d1 := if staged ≠ "" then "=== Staged Changes ===\n" ++ staged ++ "\n" else ""
  if unstaged ≠ "" then d1 ++ ("=== Unstaged Changes ===\n" ++ unstaged ++ "\n") else d1

/-- The pure value computed by `FixWorkflow.get_diff` from the stdout of
the three git invocations (return codes are ignored by the source; the
final fallback is the literal `"No changes detected"`). -/
def get_diff_value (staged unstaged status : String) : String :=
  let d2 := diff_concat staged unstaged
  let d3 := if d2 = "" then (if status ≠ "" then "=== File Status ===\n" ++ status else "")
            else d2
  if d3 ≠ "" then d3 else "No changes detected"

/-- The git invocations `get_diff` performs: the two diffs always, the
porcelain status only when both diffs came back empty. -/
def get_diff_calls (staged unstaged : String) : List CallTag :=
  if diff_concat staged unstaged = "" then
    [CallTag.diffCachedCall, CallTag.diffCall, CallTag.statusCall]
  else [CallTag.diffCachedCall, CallTag.diffCall]

/-- `FixWorkflow.get_diff`, reading the three git invocations from the
environment.  Return codes are ignored by the source; the porcelain
status runs only when both diffs are empty; the final fallback is the
literal `"No changes detected"`. -/
def get_diffM (env : WorkflowEnv) : M String := do
  let r1 ← liftExc .diffCachedCall env.gitDiffCached
  let r2 ← liftExc .diffCall env.gitDiff
  let d2 := diff_concat r1.2.1 r2.2.1
  let d3 ←
    if d2 = "" then do
      let r3 ← liftExc .statusCall env.gitStatusPorcelain
      let status := r3.2.1
      pure (if status ≠ "" then "=== File Status ===\n" ++ status else "")
    else pure d2
  pure (if d3 ≠ "" then d3 else "No changes detected")

/-- The inner try block of `run_fix`'s review step: attempt to extract and
use a structured review (here already parsed into `pr`); mutate
`result.review` and log findings on success, do nothing when no JSON
object was found.  Wrapped in `swallow` at the call site, mirroring the
source's bare `except: pass`. -/
def review_parse_block (cb : Callbacks) (pr : Option Review) : M Unit :=
  match pr with
  | some review => do
    modifyRes fun r => { r with review := some review }
    let critical := review.findings.filter fun f => f.priority ≤ 1
    if critical ≠ [] then do
      logMsg cb ("⚠ 发现 " ++ toString critical.length ++ " 个高优先级问题")
      critical.forM fun f =>
        logMsg cb ("  - [P" ++ toString f.priority ++ "] " ++ f.title)
    logMsg cb ("审查结论: " ++ review.overall_correctness)
  | none => pure ()

/-- The `FixResult` left behind by the (swallowed) review-parse block:
`result.review` is set and the findings logged when a review was parsed,
nothing changes otherwise. -/
def review_applied (res : FixResult) (pr : Option Review) : FixResult :=
  match pr with
  | none => res
  | some review =>
    let critical := review.findings.filter fun f => f.priority ≤ 1
    let out1 :=
      if critical ≠ [] then
        appendLines
          (res.output ++
            ("⚠ 发现 " ++ toString critical.length ++ " 个高优先级问题") ++ "\n")
          (critical.map fun f => "  - [P" ++ toString f.priority ++ "] " ++ f.title)
      else res.output
    { res with review := some review,
               output := out1 ++ ("审查结论: " ++ review.overall_correctness) ++ "\n" }

/-- The body of `run_fix`'s try block. -/
def run_fix_body (env : WorkflowEnv) (cb : Callbacks) (issue : FixIssue)
    (auto_commit auto_push auto_pr : Bool)
    (owner repo_name : Option String) : M Unit := do
  -- Step 1: create the fix branch
  update_status cb .branching ("创建分支 fix/issue-" ++ toString issue.number ++ "...")
  let r1 ← liftExc .branchCall env.create_fix_branch
  if !r1.1 then throwM ("创建分支失败: " ++ r1.2)
  let branch := r1.2
  modifyRes fun r => { r with branch_name := branch }
  logMsg cb ("✓ 已创建分支: " ++ branch)
  -- Step 2: the external fix tool, its lines streamed through `log`
  update_status cb .fixing "Aider 正在分析并修复..."
  recordCall .fixCall
  env.fixLines.forM (logMsg cb)
  let r2 ← (match env.fixOutcome with
    | .ok v => (pure v : M _)
    | .error e => throwM e)
  if r2.1 ≠ 0 then throwM ("Aider 修复失败，返回码: " ++ toString r2.1)
  logMsg cb "✓ Aider 修复完成"
  -- Step 3: capture the diff
  update_status cb .reviewing "获取代码更改..."
  let diff ← get_diffM env
  modifyRes fun r => { r with diff := diff }
  logMsg cb ("=== Git Diff ===\n" ++ diff)
  -- Step 4: automated review, only on a non-trivial diff
  if diff ≠ "" ∧ diff ≠ "No changes detected" then do
    update_status cb .reviewing "Aider 正在审查代码更改..."
    recordCall .reviewCall
    env.reviewLines.forM (logMsg cb)
    let r3 ← (match env.reviewOutcome with
      | .ok v => (pure v : M _)
      | .error e => throwM e)
    logMsg cb "✓ 代码审查完成"
    -- parse failure (or a failure inside the logging) never aborts the run
    swallow (review_parse_block cb (env.parseReview r3.2))
  -- Step 5: the DIFF_READY checkpoint
  update_status cb .diff_ready "修复完成，等待确认..."
  if !auto_commit then do
    update_status cb .diff_ready "等待确认提交..."
    modifyRes fun r => { r with success := true }
    return ()
  -- Step 5 (continued): commit
  update_status cb .committing "提交更改..."
  let r4 ← liftExc .commitCall env.commit_changes
  if !r4.1 then
    if strIn "没有需要提交的更改" r4.2 then logMsg cb "⚠ 没有代码更改"
    else throwM ("提交失败: " ++ r4.2)
  else logMsg cb ("✓ 已提交: " ++ r4.2)
  if !auto_push then do
    modifyRes fun r => { r with success := true }
    return ()
  -- Step 6: push
  update_status cb .pushing ("推送分支 " ++ branch ++ "...")
  let r5 ← liftExc .pushCall env.push_branch
  if !r5.1 then throwM ("推送失败: " ++ r5.2)
  logMsg cb ("✓ " ++ r5.2)
  if !auto_pr ∨ !truthy owner ∨ !truthy repo_name then do
    modifyRes fun r => { r with success := true }
    return ()
  -- Step 7: create the pull request
  update_status cb .creating_pr "创建 Pull Request..."
  recordCall .prCall
  let r6 := env.create_pr
  if !r6.1 then throwM ("创建 PR 失败: " ++ r6.2)
  modifyRes fun r => { r with pr_url := r6.2 }
  logMsg cb ("✓ PR 已创建: " ++ r6.2)
  update_status cb .completed "修复完成！"
  modifyRes fun r => { r with success := true }

/-- The except-handler of `run_fix`: record the error text and the ERROR
state, then emit the ERROR status event and log line (whose callbacks may
themselves raise, in which case the exception escapes `run_fix`). -/
def run_fix_handler (cb : Callbacks) (e : String) : M Unit := do
  modifyRes fun r => { r with error := e, status := .error }
  update_status cb .error ("错误: " ++ e)
  logMsg cb ("✗ 错误: " ++ e)

/-- `FixWorkflow.run_fix` with its internal state exposed: the outcome
(`Except.error` = an exception escaped the public entry point) together
with the final `RunState`. -/
def run_fix_run (env : WorkflowEnv) (cb : Callbacks) (issue : FixIssue)
    (auto_commit auto_push auto_pr : Bool)
    (owner repo_name : Option String) : Except String FixResult × RunState :=
  match run_fix_body env cb issue auto_commit auto_push auto_pr owner repo_name
      { res := FixResult.init, calls := [], events := [] } with
  | (Except.ok _, st) => (Except.ok st.res, st)
  | (Except.error e, st) =>
    match run_fix_handler cb e st with
    | (Except.ok _, st1) => (Except.ok st1.res, st1)
    | (Except.error e1, st1) => (Except.error e1, st1)

/-- `FixWorkflow.run_fix` as observed by the caller. -/
def run_fix (env : WorkflowEnv) (cb : Callbacks) (issue : FixIssue)
    (auto_commit auto_push auto_pr : Bool)
    (owner repo_name : Option String) : Except String FixResult :=
  (run_fix_run env cb issue auto_commit auto_push auto_pr owner repo_name).1

/-!
# Theorems
-/

/-! ## Claim C2 — atomic, crash-safe `Storage.save`

The claim states that a crash at any point during `save` leaves the
previously committed document intact, because the document is moved into
place "by a single rename/replace".  The source's own comment promises
exactly that ("先写入临时文件，再重命名（原子操作）" — write to a temp
file, then rename, an atomic operation), but the implementation first
`unlink`s the committed file and only then renames the temp file onto the
name: a crash between the two steps loses the committed document, and the
next `load` returns the default instead of it.  The claim is what the code
documents and intends; the unlink-then-rename pair is the bug. -/

/-- C2: evaluating the crash model at the failing input.  `"doc-v1"` is
committed by a completed `save`; a second `save("doc-v2")` crashes after
the `unlink` and before the `rename`; the next `load` then observes the
default, not the previously committed `"doc-v1"`. -/
theorem storage_save_crash_window :
    Storage.load
      (Storage.saveCrashed
        (Storage.save { mainFile := none, tempFile := none } "doc-v1").1
        "doc-v2" SaveCrash.afterUnlink) "DEFAULT" = "DEFAULT" ∧
    ("DEFAULT" : String) ≠ "doc-v1" := by
  constructor
  · rfl
  · decide

/-! ## Claim C3 — the `local_path` ⟷ state ≥ CLONED invariant

`clone_repo` sets `task.local_path` *before* the transition to CLONING
(lines 159–163 of `task_runner.py`), and the path stays set in the ERROR
state reached from a failed clone.  So during CLONING — and in that ERROR
state — `local_path` is set while the state is not `≥ CLONED` in the
progression, refuting the "only if" direction of the claim.  The "if"
direction holds, and from the first mutation of `clone_repo` onward the
path is always set. -/

/-- C3 counterexample: a PENDING task with no `local_path`, cloned in an
environment where `git clone` fails; the trace contains a snapshot whose
state is not ≥ CLONED (it is CLONING) while `local_path` is set. -/
theorem clone_local_path_iff_counterexample :
    ((clone_repo_trace
        { id := "1", repo_url := "https://e/o/r", repo_name := "r",
          status := TaskStatus.pending, local_path := none, message := "",
          output := "", error := "" }
        "/work"
        { repoPathExists := false,
          gitResult := Except.ok (128, "", "fatal: not found") }).any
      fun t => !atLeastCloned t.status && t.local_path.isSome) = true := by
  decide

/-- C3 amended: for a task whose entry state already satisfies the "if"
direction, every snapshot during and after `clone_repo` satisfies
"state ≥ CLONED → `local_path` set"; moreover `local_path` is set from the
first mutation of `clone_repo` onward (in particular during CLONING and in
the ERROR state of a failed clone), so the converse direction of the
claimed equivalence does not hold. -/
theorem clone_local_path_amended (task : Task) (workDir : String) (env : CloneEnv)
    (h : atLeastCloned task.status = true → task.local_path ≠ none) :
    (∀ t ∈ clone_repo_trace task workDir env,
        atLeastCloned t.status = true → t.local_path ≠ none) ∧
    (∀ t ∈ (clone_repo_trace task workDir env).tail, t.local_path ≠ none) := by
  refine ⟨?_, ?_⟩
  · intro t ht
    simp only [clone_repo_trace, List.mem_cons, List.not_mem_nil, or_false] at ht
    rcases ht with rfl | rfl | rfl | rfl | rfl
    · exact h
    · simp
    · simp
    · split <;> simp
    · split
      · split <;> split <;> simp
      · split <;> simp
  · intro t ht
    simp only [clone_repo_trace, List.tail_cons, List.mem_cons, List.not_mem_nil,
      or_false] at ht
    rcases ht with rfl | rfl | rfl | rfl
    · simp
    · simp
    · split <;> simp
    · split
      · split <;> split <;> simp
      · split <;> simp

/-- C3 amended, witness: the theorem applied to a concrete PENDING task
(no local path, so the entry hypothesis holds) and a failing clone. -/
theorem clone_local_path_amended_witness :
    (∀ t ∈ clone_repo_trace
        { id := "1", repo_url := "https://e/o/r", repo_name := "r",
          status := TaskStatus.pending, local_path := none, message := "",
          output := "", error := "" }
        "/work"
        { repoPathExists := false,
          gitResult := Except.ok (128, "", "fatal: not found") },
        atLeastCloned t.status = true → t.local_path ≠ none) ∧
    (∀ t ∈ (clone_repo_trace
        { id := "1", repo_url := "https://e/o/r", repo_name := "r",
          status := TaskStatus.pending, local_path := none, message := "",
          output := "", error := "" }
        "/work"
        { repoPathExists := false,
          gitResult := Except.ok (128, "", "fatal: not found") }).tail,
        t.local_path ≠ none) :=
  clone_local_path_amended _ _ _ (by decide)

/-! ## Claim C4 — restart downgrade of in-flight statuses -/

/-- C4: a persisted task in an in-flight status (`cloning`, `reviewing`,
`fixing`) reloads as CLONED when a non-empty `local_path` is recorded and
as PENDING otherwise; a task persisted in any other recognized status
keeps that status on reload. -/
theorem load_task_downgrade (doc : TaskDoc) :
    ((doc.status = "cloning" ∨ doc.status = "reviewing" ∨ doc.status = "fixing") →
      (truthy doc.local_path = true → (load_task doc).status = TaskStatus.cloned) ∧
      (truthy doc.local_path = false → (load_task doc).status = TaskStatus.pending)) ∧
    (∀ s, TaskStatus.ofValue? doc.status = some s →
      s ≠ TaskStatus.cloning → s ≠ TaskStatus.reviewing → s ≠ TaskStatus.fixing →
      (load_task doc).status = s) := by
  constructor
  · rintro (hs | hs | hs) <;>
      (constructor <;> intro hp <;> simp [load_task, TaskStatus.ofValue?, hs, hp])
  · intro s hs h1 h2 h3
    simp only [load_task, hs]
    simp [h1, h2, h3]

/-- C4 witness: a task persisted as `reviewing` with local path `"/p"`
reloads as CLONED, and one persisted as `cloning` with no local path
reloads as PENDING. -/
theorem load_task_downgrade_witness :
    (load_task
      { id := "1", repo_url := "u", repo_name := "r", status := "reviewing",
        local_path := some "/p", message := "", output := "", error := "" }).status
        = TaskStatus.cloned ∧
    (load_task
      { id := "2", repo_url := "u", repo_name := "r", status := "cloning",
        local_path := none, message := "", output := "", error := "" }).status
        = TaskStatus.pending ∧
    (load_task
      { id := "3", repo_url := "u", repo_name := "r", status := "completed",
        local_path := some "/p", message := "", output := "", error := "" }).status
        = TaskStatus.completed := by
  refine ⟨?_, ?_, ?_⟩
  · exact ((load_task_downgrade _).1 (by decide)).1 (by decide)
  · exact ((load_task_downgrade _).1 (by decide)).2 (by decide)
  · exact (load_task_downgrade _).2 TaskStatus.completed (by decide)
      (by decide) (by decide) (by decide)

/-! ## Claim C10 — unrecognized persisted status strings -/

/-- C10: a persisted task whose status string is not one of the seven
recognized values is reconstructed (not dropped, no failure) with status
PENDING, regardless of any recorded `local_path` (the in-flight downgrade
only fires for the recognized in-flight statuses, and PENDING is not one
of them). -/
theorem load_task_unknown_status (doc : TaskDoc) (store : List (String × TaskDoc))
    (tid : String) (h : TaskStatus.ofValue? doc.status = none)
    (hmem : (tid, doc) ∈ store) :
    (load_task doc).status = TaskStatus.pending ∧
    (tid, load_task doc) ∈ load_tasks store := by
  constructor
  · simp [load_task, h]
  · exact List.mem_map.mpr ⟨(tid, doc), hmem, rfl⟩

/-- C10 witness: a task persisted with the unknown status `"exploded"`
and a recorded local path reloads as PENDING and is present in the
reloaded registry. -/
theorem load_task_unknown_status_witness :
    (load_task
      { id := "9", repo_url := "u", repo_name := "r", status := "exploded",
        local_path := some "/p", message := "", output := "", error := "" }).status
        = TaskStatus.pending ∧
    ("9", load_task
      { id := "9", repo_url := "u", repo_name := "r", status := "exploded",
        local_path := some "/p", message := "", output := "", error := "" }) ∈
      load_tasks
        [("9", { id := "9", repo_url := "u", repo_name := "r", status := "exploded",
                 local_path := some "/p", message := "", output := "", error := "" })] :=
  load_task_unknown_status _ _ _ (by decide) (by decide)

/-! ## Decimal round-trip: `String.toNat? (toString n) = some n`

Task ids are written as `str(counter)` and recovered with `int(key)`;
these lemmas justify that the embedding's `toString`/`String.toNat?` pair
round-trips, which drives both id distinctness and counter recovery. -/

theorem digitsRep_of_lt (n : Nat) (h : n < 10) : digitsRep n = [Nat.digitChar n] := by
  rw [digitsRep]
  simp [h]

theorem digitsRep_of_ge (n : Nat) (h : ¬ n < 10) :
    digitsRep n = digitsRep (n / 10) ++ [Nat.digitChar (n % 10)] := by
  conv_lhs => rw [digitsRep]
  simp [h]

theorem toDigitsCore_eq_digitsRep (fuel : Nat) :
    ∀ (n : Nat) (ds : List Char), n < fuel →
      Nat.toDigitsCore 10 fuel n ds = digitsRep n ++ ds := by
  induction fuel with
  | zero => intro n ds h; omega
  | succ f ih =>
    intro n ds h
    by_cases h10 : n < 10
    · have hdiv : n / 10 = 0 := by omega
      have hmod : n % 10 = n := by omega
      simp [Nat.toDigitsCore, hdiv, hmod, digitsRep_of_lt n h10]
    · have hdiv : ¬ n / 10 = 0 := by omega
      have hlt : n / 10 < f := by omega
      simp only [Nat.toDigitsCore, hdiv, if_false]
      rw [ih (n / 10) _ hlt, digitsRep_of_ge n h10, List.append_assoc]
      rfl

theorem digitsRep_ne_nil (n : Nat) : digitsRep n ≠ [] := by
  by_cases h : n < 10
  · rw [digitsRep_of_lt n h]; simp
  · rw [digitsRep_of_ge n h]; simp

theorem digitChar_isDigit (n : Nat) (h : n < 10) : (Nat.digitChar n).isDigit = true := by
  interval_cases n <;> decide

theorem digitChar_sub_zero (n : Nat) (h : n < 10) :
    (Nat.digitChar n).toNat - Char.toNat '0' = n := by
  interval_cases n <;> decide

theorem digitsRep_all_isDigit (n : Nat) : ∀ c ∈ digitsRep n, c.isDigit = true := by
  induction n using Nat.strong_induction_on with
  | _ n ih =>
    by_cases h : n < 10
    · rw [digitsRep_of_lt n h]
      intro c hc
      simp only [List.mem_singleton] at hc
      exact hc ▸ digitChar_isDigit n h
    · rw [digitsRep_of_ge n h]
      intro c hc
      rcases List.mem_append.mp hc with hc | hc
      · exact ih (n / 10) (Nat.div_lt_self (by omega) (by omega)) c hc
      · simp only [List.mem_singleton] at hc
        exact hc ▸ digitChar_isDigit (n % 10) (Nat.mod_lt n (by omega))

theorem foldl_digitsRep (n : Nat) :
    ∀ a : Nat,
      (digitsRep n).foldl (fun acc c => acc * 10 + (c.toNat - Char.toNat '0')) a
        = a * 10 ^ (digitsRep n).length + n := by
  induction n using Nat.strong_induction_on with
  | _ n ih =>
    intro a
    by_cases h : n < 10
    · rw [digitsRep_of_lt n h]
      simp only [List.foldl_cons, List.foldl_nil, List.length_singleton, pow_one]
      rw [digitChar_sub_zero n h]
    · rw [digitsRep_of_ge n h]
      rw [List.foldl_append]
      rw [ih (n / 10) (Nat.div_lt_self (by omega) (by omega))]
      simp only [List.foldl_cons, List.foldl_nil, List.length_append,
        List.length_singleton]
      rw [digitChar_sub_zero (n % 10) (Nat.mod_lt n (by omega))]
      have : (a * 10 ^ (digitsRep (n / 10)).length + n / 10) * 10 + n % 10
          = a * (10 ^ (digitsRep (n / 10)).length * 10) + (n / 10 * 10 + n % 10) := by
        ring
      rw [this, pow_succ]
      omega

theorem toString_nat_eq_mk (n : Nat) : toString n = String.mk (digitsRep n) := by
  show Nat.repr n = _
  rw [Nat.repr, Nat.toDigits, toDigitsCore_eq_digitsRep (n + 1) n [] (by omega),
    List.append_nil]
  rfl

theorem toNat?_toString_nat (n : Nat) : (toString n).toNat? = some n := by
  rw [toString_nat_eq_mk]
  have hne : digitsRep n ≠ [] := digitsRep_ne_nil n
  have hisEmpty : (String.mk (digitsRep n)).isEmpty = false := by
    rw [Bool.eq_false_iff]
    intro hcontra
    rw [String.isEmpty_iff] at hcontra
    exact hne (congrArg String.data hcontra)
  have hall : (String.mk (digitsRep n)).all (·.isDigit) = true := by
    rw [String.all_eq]
    exact List.all_eq_true.mpr fun c hc => digitsRep_all_isDigit n c hc
  rw [String.toNat?]
  rw [if_pos (by rw [String.isNat, hisEmpty, hall]; rfl)]
  rw [String.foldl_eq]
  show some (List.foldl _ 0 (digitsRep n)) = some n
  rw [foldl_digitsRep n 0]
  simp

theorem toString_nat_injective (m n : Nat) (h : toString m = toString n) : m = n := by
  have := toNat?_toString_nat m
  rw [h, toNat?_toString_nat n] at this
  exact (Option.some_inj.mp this).symm

/-! ## Claim C1 — id allocation

Within one registry lifetime the counter only increments, so created ids
never repeat.  But `get_last_task_id` recovers the counter from the ids
*currently present* in the persisted document: if the task holding the
maximum id is deleted before the restart, its id is absent from the store,
the counter restarts lower, and the next `create` re-issues a previously
persisted id.  The claim's "even if the Task holding the maximum id was
deleted before the restart" is therefore false on the code. -/

theorem create_task_id (st : TaskRunnerState) (url : String) :
    (create_task st url).2.id = toString (st.task_counter + 1) := rfl

theorem create_task_counter (st : TaskRunnerState) (url : String) :
    (create_task st url).1.task_counter = st.task_counter + 1 := rfl

theorem delete_task_counter (st : TaskRunnerState) (tid : String) :
    (delete_task st tid).task_counter = st.task_counter := by
  unfold delete_task
  split <;> rfl

theorem run_ops_ids_gt (ops : List RegOp) :
    ∀ (st : TaskRunnerState), ∀ id ∈ (run_ops st ops).2,
      ∃ k, st.task_counter < k ∧ id = toString k := by
  induction ops with
  | nil => intro st id h; simp [run_ops] at h
  | cons op rest ih =>
    intro st id h
    cases op with
    | create url =>
      simp only [run_ops] at h
      rcases List.mem_cons.mp h with rfl | h2
      · exact ⟨st.task_counter + 1, by omega, rfl⟩
      · obtain ⟨k, hk, rfl⟩ := ih _ _ h2
        rw [create_task_counter] at hk
        exact ⟨k, by omega, rfl⟩
    | delete tid =>
      simp only [run_ops] at h
      obtain ⟨k, hk, rfl⟩ := ih _ _ h
      rw [delete_task_counter] at hk
      exact ⟨k, hk, rfl⟩

theorem run_ops_ids_nodup (ops : List RegOp) :
    ∀ st : TaskRunnerState, (run_ops st ops).2.Nodup := by
  induction ops with
  | nil => intro st; simp [run_ops]
  | cons op rest ih =>
    intro st
    cases op with
    | create url =>
      simp only [run_ops]
      refine List.nodup_cons.mpr ⟨?_, ih _⟩
      intro hmem
      obtain ⟨k, hk, heq⟩ := run_ops_ids_gt rest _ _ hmem
      rw [create_task_counter] at hk
      have : st.task_counter + 1 = k := by
        exact toString_nat_injective _ _ (by rw [← heq]; rfl)
      omega
    | delete tid =>
      simp only [run_ops]
      exact ih _

theorem get_last_foldl_ge (store : List (String × TaskDoc)) :
    ∀ init : Nat,
      init ≤ store.foldl
        (fun m p => match p.1.toNat? with
          | some n => max m n
          | none => m) init := by
  induction store with
  | nil => intro init; simp
  | cons hd tl ih =>
    intro init
    simp only [List.foldl_cons]
    refine le_trans ?_ (ih _)
    cases hd.1.toNat? with
    | none => exact le_refl _
    | some n => exact le_max_left _ _

theorem get_last_task_id_ge (store : List (String × TaskDoc)) (key : String)
    (doc : TaskDoc) (n : Nat) (hmem : (key, doc) ∈ store)
    (hp : key.toNat? = some n) : n ≤ get_last_task_id store := by
  unfold get_last_task_id
  induction store generalizing n with
  | nil => simp at hmem
  | cons hd tl ih =>
    rcases List.mem_cons.mp hmem with heq | hmem2
    · simp only [List.foldl_cons, ← heq, hp]
      refine le_trans (le_max_right 0 n) (get_last_foldl_ge tl _)
    · simp only [List.foldl_cons]
      -- the tail fold over any initial value dominates the tail fold over 0,
      -- and n is bounded by the latter by the induction hypothesis
      have hmain : ∀ (init : Nat),
          tl.foldl (fun m p => match p.1.toNat? with
            | some j => max m j
            | none => m) 0 ≤
          tl.foldl (fun m p => match p.1.toNat? with
            | some j => max m j
            | none => m) init := by
        intro init
        have hmono : ∀ (l : List (String × TaskDoc)) (a b : Nat), a ≤ b →
            l.foldl (fun m p => match p.1.toNat? with
              | some j => max m j
              | none => m) a ≤
            l.foldl (fun m p => match p.1.toNat? with
              | some j => max m j
              | none => m) b := by
          intro l
          induction l with
          | nil => intro a b hab; simpa using hab
          | cons x xs ihx =>
            intro a b hab
            simp only [List.foldl_cons]
            refine ihx _ _ ?_
            cases x.1.toNat? with
            | none => exact hab
            | some j => exact max_le_max hab (le_refl j)
        exact hmono tl 0 init (Nat.zero_le init)
      exact le_trans (ih n hmem2 hp) (hmain _)

theorem get_last_task_id_keys (store : List (String × TaskDoc)) :
    get_last_task_id store =
      (store.map Prod.fst).foldl
        (fun m k => match k.toNat? with
          | some n => max m n
          | none => m) 0 := by
  unfold get_last_task_id
  rw [List.foldl_map]

/-- C1 counterexample: from a fresh registry, `create` twice (ids `"1"`,
`"2"`, both persisted — the store's key set after the second create is
`["1", "2"]`), delete task `"2"`, restart.  The next `create` hands out
`"2"` again, an id that was previously persisted — refuting both the
"never reused" reading and the "next id exceeds every id ever persisted"
part of the claim. -/
theorem create_after_restart_reuses_id :
    ((run_ops freshRunner
        [RegOp.create "https://e/o/r1", RegOp.create "https://e/o/r2"]).1.store.map
      Prod.fst = ["1", "2"]) ∧
    (create_task
      (restartRunner
        (run_ops freshRunner
          [RegOp.create "https://e/o/r1", RegOp.create "https://e/o/r2",
           RegOp.delete "2"]).1.store)
      "https://e/o/r3").2.id = "2" := by
  constructor
  · decide
  · rw [create_task_id]
    show toString (get_last_task_id _ + 1) = "2"
    rw [get_last_task_id_keys]
    have hkeys : ((run_ops freshRunner
        [RegOp.create "https://e/o/r1", RegOp.create "https://e/o/r2",
         RegOp.delete "2"]).1.store.map Prod.fst) = ["1"] := by decide
    rw [hkeys]
    have h1 : ("1" : String).toNat? = some 1 := by
      rw [show ("1" : String) = toString (1 : Nat) by decide]
      exact toNat?_toString_nat 1
    simp only [List.foldl_cons, List.foldl_nil, h1]
    decide

/-- C1 amended: (a) within one registry lifetime, the ids handed out by
`create_task` over any sequence of create/delete operations are pairwise
distinct; (b) after a restart, the id allocated by the next `create` is
`toString (get_last_task_id store + 1)`, which is strictly greater
(numerically) than every id *present in the persisted document at the
moment of restart* — but not necessarily greater than ids persisted
earlier and deleted before the restart (see the counterexample). -/
theorem create_ids_nodup_and_restart_bound (st : TaskRunnerState)
    (ops : List RegOp) (store : List (String × TaskDoc)) (url key : String)
    (doc : TaskDoc) (n : Nat) (hmem : (key, doc) ∈ store)
    (hp : key.toNat? = some n) :
    (run_ops st ops).2.Nodup ∧
    (create_task (restartRunner store) url).2.id
      = toString (get_last_task_id store + 1) ∧
    n < get_last_task_id store + 1 := by
  refine ⟨run_ops_ids_nodup ops st, rfl, ?_⟩
  have := get_last_task_id_ge store key doc n hmem hp
  omega

/-- C1 amended, witness: concrete run (create, create, delete) plus a
concrete one-entry store whose key is `toString 3`. -/
theorem create_ids_nodup_and_restart_bound_witness :
    (run_ops freshRunner
      [RegOp.create "https://e/o/r1", RegOp.create "https://e/o/r2",
       RegOp.delete "1"]).2.Nodup ∧
    (create_task
      (restartRunner
        [(toString 3,
          { id := toString 3, repo_url := "u", repo_name := "r",
            status := "pending", local_path := none, message := "",
            output := "", error := "" })]) "https://e/o/r9").2.id
      = toString (get_last_task_id
          [(toString 3,
            { id := toString 3, repo_url := "u", repo_name := "r",
              status := "pending", local_path := none, message := "",
              output := "", error := "" })] + 1) ∧
    3 < get_last_task_id
          [(toString 3,
            { id := toString 3, repo_url := "u", repo_name := "r",
              status := "pending", local_path := none, message := "",
              output := "", error := "" })] + 1 :=
  create_ids_nodup_and_restart_bound freshRunner
    [RegOp.create "https://e/o/r1", RegOp.create "https://e/o/r2",
     RegOp.delete "1"]
    _ "https://e/o/r9" (toString 3) _ 3 (List.mem_singleton.mpr rfl)
    (toNat?_toString_nat 3)

/-! ## Claim C7 — filtering of assigned / skip-labeled issues -/

theorem filter_issues_mem (raws : List RawIssue) :
    ∀ i ∈ filter_issues raws,
      i.assignees = [] ∧ ∀ l ∈ i.labels, strLower l ∉ SKIP_LABELS := by
  induction raws with
  | nil => intro i h; simp [filter_issues] at h
  | cons d rest ih =>
    intro i h
    simp only [filter_issues] at h
    split_ifs at h with h1 h2
    · exact ih i h
    · exact ih i h
    · rcases List.mem_cons.mp h with rfl | h3
      · refine ⟨not_not.mp h1, ?_⟩
        intro l hl hmem
        apply h2
        refine List.any_eq_true.mpr ⟨strLower l, hmem, ?_⟩
        have : strLower l ∈ labelsLower (mkIssue d).labels :=
          List.mem_map_of_mem strLower hl
        exact List.elem_iff.mpr this
      · exact ih i h3

/-- C7: `get_best_issues` never returns an issue with a non-empty assignee
set, nor one having a label whose lower-casing lies in `SKIP_LABELS`
(in particular `"duplicate"` and `"breaking-change"`): such candidates are
dropped by `filter_issues` before any scoring. -/
theorem best_issues_never_assigned_or_skip_labeled (raws : List RawIssue)
    (n : Nat) (i : Issue) (h : i ∈ get_best_issues raws n) :
    i.assignees = [] ∧ ∀ l ∈ i.labels, strLower l ∉ SKIP_LABELS := by
  have h2 : i ∈ sort_by_difficulty (filter_issues raws) := List.mem_of_mem_take h
  rw [sort_by_difficulty, List.mem_mergeSort] at h2
  obtain ⟨j, hj, rfl⟩ := List.mem_map.mp h2
  have hassign :
      (if j.difficulty_score = none then quick_score j else j).assignees
        = j.assignees := by
    split <;> rfl
  have hlab :
      (if j.difficulty_score = none then quick_score j else j).labels
        = j.labels := by
    split <;> rfl
  rw [hassign, hlab]
  exact filter_issues_mem raws j hj

/-- C7 witness: a one-candidate pool whose issue has no assignees and no
labels; it survives into `get_best_issues` and the theorem applies to it. -/
theorem best_issues_never_assigned_or_skip_labeled_witness :
    (quick_score (mkIssue
      { number := 5, title := "t", body := "b", labels := [], url := "",
        comments := 0, assignees := [], created_at := "" })).assignees = [] ∧
    ∀ l ∈ (quick_score (mkIssue
      { number := 5, title := "t", body := "b", labels := [], url := "",
        comments := 0, assignees := [], created_at := "" })).labels,
      strLower l ∉ SKIP_LABELS := by
  refine best_issues_never_assigned_or_skip_labeled
    [{ number := 5, title := "t", body := "b", labels := [], url := "",
       comments := 0, assignees := [], created_at := "" }] 1 _ ?_
  have heval : get_best_issues
      [{ number := 5, title := "t", body := "b", labels := [], url := "",
         comments := 0, assignees := [], created_at := "" }] 1
      = [quick_score (mkIssue
          { number := 5, title := "t", body := "b", labels := [], url := "",
            comments := 0, assignees := [], created_at := "" })] := by
    simp [get_best_issues, filter_issues, sort_by_difficulty, mkIssue,
      SKIP_LABELS, labelsLower]
  rw [heval]
  exact List.mem_singleton.mpr rfl

/-! ## Claim C8 — scorer determinism, idempotence, bounds, ordering -/

theorem quick_score_val_idem (i : Issue) :
    quick_score_val (quick_score i) = quick_score_val i := rfl

theorem quick_score_idem (i : Issue) :
    quick_score (quick_score i) = quick_score i := rfl

theorem issueLE_trans (a b c : Issue) :
    issueLE a b = true → issueLE b c = true → issueLE a c = true := by
  intro h1 h2
  simp only [issueLE, decide_eq_true_eq] at h1 h2 ⊢
  omega

theorem issueLE_total (a b : Issue) :
    (issueLE a b || issueLE b a) = true := by
  simp only [issueLE, Bool.or_eq_true, decide_eq_true_eq]
  omega

/-- C8: `quick_score` is deterministic and idempotent (re-scoring an
already-scored issue returns the same difficulty and changes nothing),
the difficulty is an integer clamped into `[1, 5]` after truncation toward
zero, and `sort_by_difficulty` applied to a list of already-scored issues
produces the identical ordering it produces on the same list unscored —
an ordering that is ascending in the key `(difficulty score, comments)`. -/
theorem quick_score_deterministic_and_sort_stable (i : Issue) (l : List Issue)
    (h : ∀ j ∈ l, j.difficulty_score = none) :
    quick_score_val (quick_score i) = quick_score_val i ∧
    quick_score (quick_score i) = quick_score i ∧
    1 ≤ quick_score_val i ∧ quick_score_val i ≤ 5 ∧
    sort_by_difficulty (l.map quick_score) = sort_by_difficulty l ∧
    (sort_by_difficulty l).Pairwise (fun a b => issueLE a b = true) := by
  refine ⟨quick_score_val_idem i, quick_score_idem i, ?_, ?_, ?_, ?_⟩
  · exact le_max_left 1 _
  · exact max_le (by norm_num) (min_le_left 5 _)
  · unfold sort_by_difficulty
    congr 1
    rw [List.map_map]
    have h1 : ∀ j ∈ l,
        ((fun i => if i.difficulty_score = none then quick_score i else i) ∘
          quick_score) j = quick_score j := by
      intro j _
      simp [quick_score, Function.comp]
    have h2 : ∀ j ∈ l,
        (fun i => if i.difficulty_score = none then quick_score i else i) j
          = quick_score j := by
      intro j hj
      simp [h j hj]
    rw [List.map_congr_left h1, List.map_congr_left h2]
  · exact @List.sorted_mergeSort Issue issueLE
      (fun a b c => issueLE_trans a b c) (fun a b => issueLE_total a b) _

/-- C8 witness: a concrete issue and a concrete one-element unscored
list. -/
theorem quick_score_deterministic_and_sort_stable_witness :
    let i0 : Issue :=
      { number := 1, title := "Fix typo", body := "small typo", labels := [],
        url := "", comments := 0, assignees := [], created_at := "",
        difficulty_score := none, recommendation := "", estimated_files := 0 }
    let l0 : List Issue :=
      [{ number := 2, title := "x", body := "y", labels := [], url := "",
         comments := 3, assignees := [], created_at := "",
         difficulty_score := none, recommendation := "", estimated_files := 0 }]
    quick_score_val (quick_score i0) = quick_score_val i0 ∧
    quick_score (quick_score i0) = quick_score i0 ∧
    1 ≤ quick_score_val i0 ∧ quick_score_val i0 ≤ 5 ∧
    sort_by_difficulty (l0.map quick_score) = sort_by_difficulty l0 ∧
    (sort_by_difficulty l0).Pairwise (fun a b => issueLE a b = true) :=
  quick_score_deterministic_and_sort_stable _ _
    (by intro j hj; rcases List.mem_singleton.mp hj with rfl; rfl)

/-! ## `run_fix` evaluation lemmas

Pointwise reduction lemmas for the `M` monad and the workflow's
primitives, used to execute `run_fix` symbolically. -/

theorem M_bind_apply (x : M α) (f : α → M β) (st : RunState) :
    (x >>= f) st =
      match x st with
      | (Except.ok a, st1) => f a st1
      | (Except.error e, st1) => (Except.error e, st1) := rfl

theorem M_pure_apply (a : α) (st : RunState) :
    (pure a : M α) st = (Except.ok a, st) := rfl

theorem throwM_apply {α : Type} (e : String) (st : RunState) :
    @throwM α e st = (Except.error e, st) := rfl

theorem modifyRes_apply (f : FixResult → FixResult) (st : RunState) :
    modifyRes f st = (Except.ok (), { st with res := f st.res }) := rfl

theorem recordCall_apply (t : CallTag) (st : RunState) :
    recordCall t st = (Except.ok (), { st with calls := st.calls ++ [t] }) := rfl

theorem recordEvent_apply (s : FixStatus) (m : String) (st : RunState) :
    recordEvent s m st
      = (Except.ok (), { st with events := st.events ++ [(s, m)] }) := rfl

theorem update_status_apply {cb : Callbacks}
    (hs : cb.on_status = fun _ _ => none) (s : FixStatus) (m : String)
    (st : RunState) :
    update_status cb s m st
      = (Except.ok (),
          { st with res := { st.res with status := s },
                    events := st.events ++ [(s, m)] }) := by
  simp only [update_status, hs]
  rfl

theorem logMsg_apply {cb : Callbacks}
    (ho : cb.on_output = fun _ => none) (m : String) (st : RunState) :
    logMsg cb m st
      = (Except.ok (),
          { st with res :=
              { st.res with output := st.res.output ++ m ++ "\n" } }) := by
  simp only [logMsg, ho]
  rfl

theorem liftExc_ok_apply (tag : CallTag) (a : α) (st : RunState) :
    liftExc tag (Except.ok a) st
      = (Except.ok a, { st with calls := st.calls ++ [tag] }) := rfl

theorem liftExc_error_apply {α : Type} (tag : CallTag) (e : String) (st : RunState) :
    @liftExc α tag (Except.error e) st
      = (Except.error e, { st with calls := st.calls ++ [tag] }) := rfl

theorem swallow_apply (m : M Unit) (st : RunState) :
    swallow m st = (Except.ok (), (m st).2) := by
  unfold swallow
  rcases m st with ⟨r, st1⟩
  rfl

theorem forM_logMsg_apply {cb : Callbacks} {α : Type}
    (ho : cb.on_output = fun _ => none) (g : α → String) (l : List α)
    (st : RunState) :
    (l.forM fun x => logMsg cb (g x)) st
      = (Except.ok (),
          { st with res :=
              { st.res with
                output := appendLines st.res.output (l.map g) } }) := by
  induction l generalizing st with
  | nil => rfl
  | cons x xs ih =>
    simp only [List.forM_cons', M_bind_apply, logMsg_apply ho, ih]
    rfl

theorem review_parse_swallow_eval {cb : Callbacks}
    (ho : cb.on_output = fun _ => none) (pr : Option Review) (st : RunState) :
    swallow (review_parse_block cb pr) st
      = (Except.ok (), { st with res := review_applied st.res pr }) := by
  rw [swallow_apply]
  cases pr with
  | none => rfl
  | some review =>
    by_cases hc : (review.findings.filter fun f => f.priority ≤ 1) ≠ []
    · simp only [review_parse_block, review_applied]
      rw [if_pos hc, if_pos hc]
      simp only [M_bind_apply, modifyRes_apply, logMsg_apply ho,
        forM_logMsg_apply ho, M_pure_apply]
    · simp only [review_parse_block, review_applied]
      rw [if_neg hc, if_neg hc]
      simp only [M_bind_apply, modifyRes_apply, logMsg_apply ho, M_pure_apply]

theorem get_diffM_eval {env : WorkflowEnv} {dc du dp : Int × String × String}
    (hdc : env.gitDiffCached = Except.ok dc)
    (hdu : env.gitDiff = Except.ok du)
    (hdp : env.gitStatusPorcelain = Except.ok dp) (st : RunState) :
    get_diffM env st
      = (Except.ok (get_diff_value dc.2.1 du.2.1 dp.2.1),
          { st with calls := st.calls ++ get_diff_calls dc.2.1 du.2.1 }) := by
  by_cases hd : diff_concat dc.2.1 du.2.1 = ""
  · simp only [get_diffM, M_bind_apply, liftExc_ok_apply, hdc, hdu, hdp,
      M_pure_apply, hd, if_pos, get_diff_value, get_diff_calls, if_true,
      List.append_assoc]
    rfl
  · simp only [get_diffM, M_bind_apply, liftExc_ok_apply, hdc, hdu,
      M_pure_apply, hd, get_diff_value, get_diff_calls, if_false,
      List.append_assoc]
    rfl

theorem run_fix_handler_apply {cb : Callbacks}
    (hs : cb.on_status = fun _ _ => none) (ho : cb.on_output = fun _ => none)
    (e : String) (st : RunState) :
    run_fix_handler cb e st
      = (Except.ok (),
          { st with
            res := { st.res with
                     error := e, status := FixStatus.error,
                     output := st.res.output ++ ("✗ 错误: " ++ e) ++ "\n" },
            events := st.events ++ [(FixStatus.error, "错误: " ++ e)] }) := by
  simp only [run_fix_handler, M_bind_apply, modifyRes_apply,
    update_status_apply hs, logMsg_apply ho]

/-! ## Claim C9 — no fault crosses `run_fix`

The try/except in `run_fix` converts any exception raised inside the try
body into the ERROR result.  But the except handler itself invokes the
status and output callbacks (`update_status(ERROR, ...)`, `log(...)`); if
one of those raises, the new exception propagates out of `run_fix`.  So
the claim's "with any behaviour ... of the status/output callbacks" is
refuted; it holds for collaborator exceptions under callbacks that return
normally. -/

/-- C9 counterexample: a status callback that raises makes `run_fix`
itself raise — the caller sees an exception, not a result object. -/
theorem run_fix_raises_counterexample :
    run_fix
      { create_fix_branch := Except.ok (true, "b"), fixLines := [],
        fixOutcome := Except.ok (0, ""), gitDiffCached := Except.ok (0, "", ""),
        gitDiff := Except.ok (0, "", ""),
        gitStatusPorcelain := Except.ok (0, "", ""), reviewLines := [],
        reviewOutcome := Except.ok (0, ""), parseReview := fun _ => none,
        commit_changes := Except.ok (true, ""),
        push_branch := Except.ok (true, ""), create_pr := (true, "") }
      { on_status := fun _ _ => some "callback-raised",
        on_output := fun _ => none }
      { number := 1, title := "t", body := "" } false false false none none
      = Except.error "callback-raised" := rfl

/-- C9 amended: provided the status/output callbacks return normally, a
`run_fix` call returns a `FixResult` for every behaviour (including
exceptions) of the git, code-modification, review and platform
collaborators; and whenever the try body raised with text `e`, the
returned result carries `status = ERROR` and `error = e`. -/
theorem run_fix_never_raises (env : WorkflowEnv) (cb : Callbacks)
    (issue : FixIssue) (ac ap apr : Bool) (ow rn : Option String)
    (hs : cb.on_status = fun _ _ => none) (ho : cb.on_output = fun _ => none) :
    (∃ r, run_fix env cb issue ac ap apr ow rn = Except.ok r) ∧
    (∀ e st,
      run_fix_body env cb issue ac ap apr ow rn
          { res := FixResult.init, calls := [], events := [] }
        = (Except.error e, st) →
      ∃ r, run_fix env cb issue ac ap apr ow rn = Except.ok r ∧
        r.status = FixStatus.error ∧ r.error = e) := by
  unfold run_fix run_fix_run
  rcases hbody : run_fix_body env cb issue ac ap apr ow rn
    { res := FixResult.init, calls := [], events := [] } with ⟨out, st⟩
  cases out with
  | ok a =>
    constructor
    · refine ⟨st.res, ?_⟩
      simp only [hbody]
    · intro e st1 h
      exact absurd (congrArg Prod.fst h) (by simp)
  | error e0 =>
    constructor
    · simp only [hbody, run_fix_handler_apply hs ho]
      exact ⟨_, rfl⟩
    · intro e st1 h
      have he : e0 = e := by simpa using congrArg Prod.fst h
      subst he
      simp only [hbody, run_fix_handler_apply hs ho]
      exact ⟨_, rfl, rfl, rfl⟩

/-- C9 amended, witness: concrete no-raise callbacks and a collaborator
environment whose branch step raises; the body fails with that exception
text and `run_fix` still returns a result, in ERROR state carrying it. -/
theorem run_fix_never_raises_witness :
    (∃ r, run_fix
      { create_fix_branch := Except.error "git exploded", fixLines := [],
        fixOutcome := Except.ok (0, ""), gitDiffCached := Except.ok (0, "", ""),
        gitDiff := Except.ok (0, "", ""),
        gitStatusPorcelain := Except.ok (0, "", ""), reviewLines := [],
        reviewOutcome := Except.ok (0, ""), parseReview := fun _ => none,
        commit_changes := Except.ok (true, ""),
        push_branch := Except.ok (true, ""), create_pr := (true, "") }
      { on_status := fun _ _ => none, on_output := fun _ => none }
      { number := 1, title := "t", body := "" } false false false none none
      = Except.ok r) ∧
    (∀ e st,
      run_fix_body
        { create_fix_branch := Except.error "git exploded", fixLines := [],
          fixOutcome := Except.ok (0, ""), gitDiffCached := Except.ok (0, "", ""),
          gitDiff := Except.ok (0, "", ""),
          gitStatusPorcelain := Except.ok (0, "", ""), reviewLines := [],
          reviewOutcome := Except.ok (0, ""), parseReview := fun _ => none,
          commit_changes := Except.ok (true, ""),
          push_branch := Except.ok (true, ""), create_pr := (true, "") }
        { on_status := fun _ _ => none, on_output := fun _ => none }
        { number := 1, title := "t", body := "" } false false false none none
          { res := FixResult.init, calls := [], events := [] }
        = (Except.error e, st) →
      ∃ r, run_fix
        { create_fix_branch := Except.error "git exploded", fixLines := [],
          fixOutcome := Except.ok (0, ""), gitDiffCached := Except.ok (0, "", ""),
          gitDiff := Except.ok (0, "", ""),
          gitStatusPorcelain := Except.ok (0, "", ""), reviewLines := [],
          reviewOutcome := Except.ok (0, ""), parseReview := fun _ => none,
          commit_changes := Except.ok (true, ""),
          push_branch := Except.ok (true, ""), create_pr := (true, "") }
        { on_status := fun _ _ => none, on_output := fun _ => none }
        { number := 1, title := "t", body := "" } false false false none none
        = Except.ok r ∧ r.status = FixStatus.error ∧ r.error = e) :=
  run_fix_never_raises _ _ _ _ _ _ _ _ rfl rfl

/-! ## Claim C5 — the DIFF_READY checkpoint with `auto_commit = false` -/

theorem commitCall_not_in_get_diff_calls (s u : String) :
    CallTag.commitCall ∉ get_diff_calls s u := by
  unfold get_diff_calls
  split <;> decide

/-- C5: when `auto_commit = false` and the branching, fixing, and
diff-capture/review steps all succeed (their collaborator calls return
normally, the branch is created, the fix tool exits 0), `run_fix` returns
a result with `status = DIFF_READY` and `success = true`, no git
commit is executed (`commit_changes` is never invoked), and the
COMMITTING state is never entered. -/
theorem run_fix_checkpoint_stop (env : WorkflowEnv) (cb : Callbacks)
    (issue : FixIssue) (ap apr : Bool) (ow rn : Option String) (b fo : String)
    (dc du dp : Int × String × String) (rv : Int × String)
    (hs : cb.on_status = fun _ _ => none) (ho : cb.on_output = fun _ => none)
    (hbr : env.create_fix_branch = Except.ok (true, b))
    (hfx : env.fixOutcome = Except.ok (0, fo))
    (hdc : env.gitDiffCached = Except.ok dc)
    (hdu : env.gitDiff = Except.ok du)
    (hdp : env.gitStatusPorcelain = Except.ok dp)
    (hrv : env.reviewOutcome = Except.ok rv) :
    ∃ r,
      (run_fix_run env cb issue false ap apr ow rn).1 = Except.ok r ∧
      r.status = FixStatus.diff_ready ∧ r.success = true ∧
      CallTag.commitCall ∉ (run_fix_run env cb issue false ap apr ow rn).2.calls ∧
      ∀ m, (FixStatus.committing, m) ∉
        (run_fix_run env cb issue false ap apr ow rn).2.events := by
  simp [run_fix_run, run_fix_body, M_bind_apply, M_pure_apply,
    update_status_apply hs, logMsg_apply ho, liftExc_ok_apply, hbr, hfx,
    forM_logMsg_apply ho, get_diffM_eval hdc hdu hdp, hrv, recordCall_apply,
    modifyRes_apply, review_parse_swallow_eval ho]
  by_cases hdiff : ¬get_diff_value dc.2.1 du.2.1 dp.2.1 = "" ∧
      ¬get_diff_value dc.2.1 du.2.1 dp.2.1 = "No changes detected"
  · simp [hdiff, M_bind_apply, M_pure_apply, update_status_apply hs,
      logMsg_apply ho, forM_logMsg_apply ho, recordCall_apply,
      modifyRes_apply, review_parse_swallow_eval ho]
    exact commitCall_not_in_get_diff_calls _ _
  · simp [hdiff, M_bind_apply, M_pure_apply, update_status_apply hs,
      logMsg_apply ho, modifyRes_apply]
    exact commitCall_not_in_get_diff_calls _ _

/-- C5 witness: a concrete all-successful environment with
`auto_commit = false`. -/
theorem run_fix_checkpoint_stop_witness :
    ∃ r,
      (run_fix_run
        { create_fix_branch := Except.ok (true, "fix/issue-7"),
          fixLines := ["working"], fixOutcome := Except.ok (0, "done"),
          gitDiffCached := Except.ok (0, "some diff", ""),
          gitDiff := Except.ok (0, "", ""),
          gitStatusPorcelain := Except.ok (0, "", ""), reviewLines := [],
          reviewOutcome := Except.ok (0, "looks fine"),
          parseReview := fun _ => none,
          commit_changes := Except.ok (true, "msg"),
          push_branch := Except.ok (true, "pushed"),
          create_pr := (true, "http://pr") }
        { on_status := fun _ _ => none, on_output := fun _ => none }
        { number := 7, title := "t", body := "b" } false false false
        none none).1 = Except.ok r ∧
      r.status = FixStatus.diff_ready ∧ r.success = true ∧
      CallTag.commitCall ∉
        (run_fix_run
          { create_fix_branch := Except.ok (true, "fix/issue-7"),
            fixLines := ["working"], fixOutcome := Except.ok (0, "done"),
            gitDiffCached := Except.ok (0, "some diff", ""),
            gitDiff := Except.ok (0, "", ""),
            gitStatusPorcelain := Except.ok (0, "", ""), reviewLines := [],
            reviewOutcome := Except.ok (0, "looks fine"),
            parseReview := fun _ => none,
            commit_changes := Except.ok (true, "msg"),
            push_branch := Except.ok (true, "pushed"),
            create_pr := (true, "http://pr") }
          { on_status := fun _ _ => none, on_output := fun _ => none }
          { number := 7, title := "t", body := "b" } false false false
          none none).2.calls ∧
      ∀ m, (FixStatus.committing, m) ∉
        (run_fix_run
          { create_fix_branch := Except.ok (true, "fix/issue-7"),
            fixLines := ["working"], fixOutcome := Except.ok (0, "done"),
            gitDiffCached := Except.ok (0, "some diff", ""),
            gitDiff := Except.ok (0, "", ""),
            gitStatusPorcelain := Except.ok (0, "", ""), reviewLines := [],
            reviewOutcome := Except.ok (0, "looks fine"),
            parseReview := fun _ => none,
            commit_changes := Except.ok (true, "msg"),
            push_branch := Except.ok (true, "pushed"),
            create_pr := (true, "http://pr") }
          { on_status := fun _ _ => none, on_output := fun _ => none }
          { number := 7, title := "t", body := "b" } false false false
          none none).2.events :=
  run_fix_checkpoint_stop _ _ _ _ _ _ _ "fix/issue-7" "done"
    (0, "some diff", "") (0, "", "") (0, "", "") (0, "looks fine")
    rfl rfl rfl rfl rfl rfl rfl rfl

/-! ## Claim C6 — the empty-diff sentinel

When the staged diff, unstaged diff and porcelain status are all empty,
`get_diff` returns the literal sentinel — but that literal is
`"No changes detected"` (capital N), not the claim's
`"no changes detected"`.  Everything else in the claim holds: the review
sub-step is skipped and the workflow still reaches DIFF_READY with
`success = true`. -/

/-- C6 counterexample: with all three git outputs empty, the captured
diff is `"No changes detected"`, which is not the claimed literal
`"no changes detected"`. -/
theorem diff_sentinel_capitalization_counterexample :
    (run_fix
      { create_fix_branch := Except.ok (true, "fix/issue-3"), fixLines := [],
        fixOutcome := Except.ok (0, ""), gitDiffCached := Except.ok (0, "", ""),
        gitDiff := Except.ok (0, "", ""),
        gitStatusPorcelain := Except.ok (0, "", ""), reviewLines := [],
        reviewOutcome := Except.ok (0, ""), parseReview := fun _ => none,
        commit_changes := Except.ok (true, ""),
        push_branch := Except.ok (true, ""), create_pr := (true, "") }
      { on_status := fun _ _ => none, on_output := fun _ => none }
      { number := 3, title := "t", body := "" } false false false
      none none).map (fun r => r.diff) = Except.ok "No changes detected" ∧
    ("No changes detected" : String) ≠ "no changes detected" := by
  constructor
  · rfl
  · decide

/-- C6 amended: when, after FIXING, the staged diff, the unstaged diff and
the porcelain file-status are all empty, the captured diff equals the
literal `"No changes detected"` (capitalized, unlike the claim's
lowercase literal), the automated review sub-step is skipped, and the
workflow still reaches DIFF_READY with `success = true`. -/
theorem run_fix_no_changes_sentinel (env : WorkflowEnv) (cb : Callbacks)
    (issue : FixIssue) (ap apr : Bool) (ow rn : Option String) (b fo : String)
    (c1 c2 c3 : Int) (e1 e2 e3 : String)
    (hs : cb.on_status = fun _ _ => none) (ho : cb.on_output = fun _ => none)
    (hbr : env.create_fix_branch = Except.ok (true, b))
    (hfx : env.fixOutcome = Except.ok (0, fo))
    (hdc : env.gitDiffCached = Except.ok (c1, "", e1))
    (hdu : env.gitDiff = Except.ok (c2, "", e2))
    (hdp : env.gitStatusPorcelain = Except.ok (c3, "", e3)) :
    ∃ r,
      (run_fix_run env cb issue false ap apr ow rn).1 = Except.ok r ∧
      r.diff = "No changes detected" ∧
      r.status = FixStatus.diff_ready ∧ r.success = true ∧
      CallTag.reviewCall ∉ (run_fix_run env cb issue false ap apr ow rn).2.calls := by
  simp [run_fix_run, run_fix_body, M_bind_apply, M_pure_apply,
    update_status_apply hs, logMsg_apply ho, liftExc_ok_apply, hbr, hfx,
    forM_logMsg_apply ho, get_diffM_eval hdc hdu hdp, recordCall_apply,
    modifyRes_apply, get_diff_value, get_diff_calls, diff_concat]

/-- C6 amended, witness: a concrete environment with no working-tree
changes after FIXING. -/
theorem run_fix_no_changes_sentinel_witness :
    ∃ r,
      (run_fix_run
        { create_fix_branch := Except.ok (true, "fix/issue-3"), fixLines := [],
          fixOutcome := Except.ok (0, ""), gitDiffCached := Except.ok (0, "", ""),
          gitDiff := Except.ok (0, "", ""),
          gitStatusPorcelain := Except.ok (0, "", ""), reviewLines := [],
          reviewOutcome := Except.ok (0, ""), parseReview := fun _ => none,
          commit_changes := Except.ok (true, ""),
          push_branch := Except.ok (true, ""), create_pr := (true, "") }
        { on_status := fun _ _ => none, on_output := fun _ => none }
        { number := 3, title := "t", body := "" } false false false
        none none).1 = Except.ok r ∧
      r.diff = "No changes detected" ∧
      r.status = FixStatus.diff_ready ∧ r.success = true ∧
      CallTag.reviewCall ∉
        (run_fix_run
          { create_fix_branch := Except.ok (true, "fix/issue-3"), fixLines := [],
            fixOutcome := Except.ok (0, ""), gitDiffCached := Except.ok (0, "", ""),
            gitDiff := Except.ok (0, "", ""),
            gitStatusPorcelain := Except.ok (0, "", ""), reviewLines := [],
            reviewOutcome := Except.ok (0, ""), parseReview := fun _ => none,
            commit_changes := Except.ok (true, ""),
            push_branch := Except.ok (true, ""), create_pr := (true, "") }
          { on_status := fun _ _ => none, on_output := fun _ => none }
          { number := 3, title := "t", body := "" } false false false
          none none).2.calls :=
  run_fix_no_changes_sentinel _ _ _ _ _ _ _ "fix/issue-3" "" 0 0 0 "" "" ""
    rfl rfl rfl rfl rfl rfl rfl

end AiderAgent
